import Mathlib

/-!
# ChoosePassword: password strength and credential provisioning

A shallow embedding of `app/components/ChoosePassword/index.js`:

* `onPasswordChange` (source lines 277-294), the password strength meter;
* `onPressCreate` (source lines 187-237), the workflow that creates the vault,
  stores the password in the secure keychain and writes the onboarding flags.

JavaScript strings are modelled by Lean `String`s (sequences of Unicode scalar
values).  A well-formed JavaScript string is the UTF-16 encoding of such a
sequence; strings with unpaired surrogates are outside the model.  Where the
source counts UTF-16 code units (`.length`, the regular expression `.`), the
embedding does so explicitly (`jsLength`, `matchDotSymbol`).

The collaborators (`Engine.context.KeyringController`, `SecureKeychain`,
`AsyncStorage`, the `passwordSet` and `navigation` props, the `strings`
localisation table) are not part of the component: they are parameters of the
model (`Env`).  One run of `onPressCreate` is modelled without interleaved user
events: `this.state` changes only through the `setState` calls of the run.
-/

namespace ChoosePassword

/-! ## JavaScript string primitives -/

/-- Number of UTF-16 code units of one Unicode scalar value. -/
def utf16Units (c : Char) : Nat :=
  if c.toNat < 65536 then 1 else 2

/-- The JavaScript `s.length`: the number of UTF-16 code units of the string. -/
def jsLength (s : String) : Nat :=
  (s.data.map utf16Units).sum

/-- The regular expression class `[a-z]`. -/
def isLower (c : Char) : Bool :=
  decide (97 ≤ c.toNat) && decide (c.toNat ≤ 122)

/-- The regular expression class `\d` (JavaScript: exactly the ASCII digits). -/
def isDigit (c : Char) : Bool :=
  decide (48 ≤ c.toNat) && decide (c.toNat ≤ 57)

/-- The characters the regular expression `.` (no `s` flag) does not match:
LF, CR, U+2028 and U+2029. -/
def isLineTerminator (c : Char) : Bool :=
  decide (c.toNat = 10) || decide (c.toNat = 13) || decide (c.toNat = 8232) ||
    decide (c.toNat = 8233)

/-- The character class written in the source as
`[!,@,#,$,%,^,&,*,?,_,~,-,(,)]`.  Inside a class the comma is an ordinary
member, and `,-,` is the range from `,` to `,`; so the class holds
`! , @ # $ % ^ & * ? _ ~ ( )` and does not hold the hyphen. -/
def isSymbol (c : Char) : Bool :=
  decide (c.toNat ∈ [33, 44, 64, 35, 36, 37, 94, 38, 42, 63, 95, 126, 40, 41])

/-- Result of `val.match(/[a-z]/)` as a truth value: some character is in `a-z`. -/
def matchLower (s : String) : Bool :=
  s.data.any isLower

/-- Result of `val.match(/\d+/)` as a truth value: some character is a digit. -/
def matchDigit (s : String) : Bool :=
  s.data.any isDigit

/-- Search for `/.[!,@,#,$,%,^,&,*,?,_,~,-,(,)]/` in a character sequence: some
character other than a line terminator is immediately followed by a member of
the class.  (An astral character is two code units, the second of which `.`
matches, so the scalar-value reading agrees with the code-unit one.) -/
def matchDotSymbolAux : List Char → Bool
  | [] => false
  | [_] => false
  | c :: d :: rest => (!isLineTerminator c && isSymbol d) || matchDotSymbolAux (d :: rest)

/-- Result of `val.match(/.[!,@,#,$,%,^,&,*,?,_,~,-,(,)]/)` as a truth value. -/
def matchDotSymbol (s : String) : Bool :=
  matchDotSymbolAux s.data

/-! ## Component state -/

/-- The component state `this.state` (source lines 160-170), with the
`passwordStrength` key that `onPasswordChange` adds.  The two `Animated.Value`
objects are represented by their current scale. -/
structure State where
  password : String
  confirmPassword : String
  secureTextEntry : Bool
  biometryType : Option String
  biometryChoice : Bool
  labelsScaleNew : Rat
  labelsScaleConfirm : Rat
  loading : Bool
  error : Option String
  passwordStrength : Option Nat
  deriving DecidableEq

/-- The initial state of the component (source lines 160-170). -/
def State.initial : State :=
  { password := "", confirmPassword := "", secureTextEntry := true,
    biometryType := none, biometryChoice := false,
    labelsScaleNew := 1, labelsScaleConfirm := 1,
    loading := false, error := none, passwordStrength := none }

/-! ## Password strength (`onPasswordChange`) -/

/-- The local variable `strength` computed by `onPasswordChange`
(source lines 278-291): 1 is weak, 2 is good, 3 is strong. -/
def strength (val : String) : Nat :=
  let strength := 1
  let strength :=
    if decide (jsLength val > 6) &&
        ((matchLower val && matchDigit val) ||
          (matchDigit val && matchDotSymbol val) ||
          (matchLower val && matchDotSymbol val))
    then 2 else strength
  let strength :=
    if decide (jsLength val > 6) && matchLower val && matchDigit val && matchDotSymbol val
    then 3 else strength
  strength

/-- The handler `onPasswordChange` (source lines 277-294):
`this.setState({ password: val, passwordStrength: strength })`. -/
def onPasswordChange (st : State) (val : String) : State :=
  { st with password := val, passwordStrength := some (strength val) }

/-- The word shown for a strength (`getPasswordStrengthWord`, lines 266-275). -/
def getPasswordStrengthWord (st : State) : Option String :=
  match st.passwordStrength with
  | some 1 => some "weak"
  | some 2 => some "good"
  | some 3 => some "strong"
  | _ => none

/-! ## More string primitives used by `onPressCreate` -/

/-- The double quote character U+0022. -/
def doubleQuote : Char := Char.ofNat 34

/-- The backslash character U+005C. -/
def backslash : Char := Char.ofNat 92

/-- The space character U+0020. -/
def space : Char := Char.ofNat 32

/-- One lowercase hexadecimal digit. -/
def hexDigit (n : Nat) : Char :=
  if n < 10 then Char.ofNat (48 + n) else Char.ofNat (87 + n)

/-- The `UnicodeEscape` of ECMAScript: a backslash, `u` and four hex digits. -/
def unicodeEscape (c : Char) : List Char :=
  [backslash, Char.ofNat 117, hexDigit (c.toNat / 4096 % 16), hexDigit (c.toNat / 256 % 16),
    hexDigit (c.toNat / 16 % 16), hexDigit (c.toNat % 16)]

/-- One step of ECMAScript `QuoteJSONString`: the text a character of a string
contributes to `JSON.stringify`. -/
def quoteJSONChar (c : Char) : List Char :=
  if c.toNat = 8 then [backslash, Char.ofNat 98]
  else if c.toNat = 9 then [backslash, Char.ofNat 116]
  else if c.toNat = 10 then [backslash, Char.ofNat 110]
  else if c.toNat = 12 then [backslash, Char.ofNat 102]
  else if c.toNat = 13 then [backslash, Char.ofNat 114]
  else if c.toNat = 34 then [backslash, doubleQuote]
  else if c.toNat = 92 then [backslash, backslash]
  else if c.toNat < 32 then unicodeEscape c
  else [c]

/-- The call `JSON.stringify(mnemonic)` for a string `mnemonic`. -/
def JSON_stringify (mnemonic : String) : String :=
  ⟨doubleQuote :: ((mnemonic.data.map quoteJSONChar).flatten ++ [doubleQuote])⟩

/-- The call `.replace(/"/g, '')`: drops every double quote. -/
def removeDoubleQuotes (s : String) : String :=
  ⟨s.data.filter (fun c => c != doubleQuote)⟩

/-- Split a character sequence at every occurrence of `sep`. -/
def splitAux (sep : Char) : List Char → List (List Char)
  | [] => [[]]
  | c :: cs =>
    if c = sep then [] :: splitAux sep cs
    else
      match splitAux sep cs with
      | [] => [[c]]
      | w :: ws => (c :: w) :: ws

/-- The call `seed.split(' ')`. -/
def splitSpace (seed : String) : List String :=
  (splitAux space seed.data).map String.mk

/-- The JavaScript `words.join(' ')`. -/
def joinSpace (words : List String) : String :=
  ⟨[space].intercalate (words.map String.data)⟩

/-! ## Collaborators and effects -/

/-- A thrown JavaScript value, as far as the `catch` block observes it:
the result of `error.toString()`. -/
structure JSError where
  toString : String
  deriving DecidableEq

/-- The two members of `SecureKeychain.ACCESS_CONTROL` the component uses. -/
inductive AccessControl where
  | BIOMETRY_CURRENT_SET_OR_DEVICE_PASSCODE
  | DEVICE_PASSCODE
  deriving DecidableEq

/-- A call of `onPressCreate` to something outside the component, with its
arguments. -/
inductive Call where
  | exportSeedPhrase (password : String)
  | createNewVaultAndRestore (password seed : String)
  | setGenericPassword (key password : String) (accessControl : AccessControl)
  | removeItem (key : String)
  | setItem (key : String) (value : Option String)
  | passwordSet
  | navigate (route : String) (words : List String)
  deriving DecidableEq

/-- The collaborators of the specification: the key vault service, the secure
credential store and the persistent flag store. -/
def Call.isCollaborator : Call → Bool
  | .exportSeedPhrase _ => true
  | .createNewVaultAndRestore _ _ => true
  | .setGenericPassword _ _ _ => true
  | .removeItem _ => true
  | .setItem _ _ => true
  | .passwordSet => false
  | .navigate _ _ => false

/-- An observable step of a run.  `call c returned` is a call that returned
(its promise resolved) when `returned` is true and threw (rejected) otherwise.
`setState loading error` is `this.setState` with the key `loading`, and with
the key `error` when `error` is `some _`. -/
inductive Event where
  | call (c : Call) (returned : Bool)
  | alert (title message : String)
  | setState (loading : Bool) (error : Option String)
  deriving DecidableEq

/-- What the surroundings of the component answer.  `strings` is the
localisation table; every other field is the result of a call, as a function
of its arguments. -/
structure Env where
  strings : String → String
  exportSeedPhrase : String → Except JSError String
  createNewVaultAndRestore : String → String → Except JSError Unit
  setGenericPassword : String → String → AccessControl → Except JSError Unit
  removeItem : String → Except JSError Unit
  setItem : String → Option String → Except JSError Unit
  passwordSet : Except JSError Unit
  navigate : String → List String → Except JSError Unit

/-- The component state together with the trace of the run so far. -/
structure World where
  state : State
  trace : List Event
  deriving DecidableEq

/-- A computation that may throw; state and trace survive a throw. -/
def Eff (α : Type) : Type := World → Except JSError α × World

/-- Return a value. -/
def Eff.pure {α : Type} (a : α) : Eff α := fun w => (.ok a, w)

/-- Sequencing: the second computation runs only if the first did not throw. -/
def Eff.bind {α β : Type} (m : Eff α) (f : α → Eff β) : Eff β := fun w =>
  match m w with
  | (.ok a, w1) => f a w1
  | (.error e, w1) => (.error e, w1)

instance : Monad Eff where
  pure := Eff.pure
  bind := Eff.bind

/-- The statement `try { body } catch (error) { handler }`. -/
def tryCatch (body : Eff Unit) (handler : JSError → Eff Unit) : Eff Unit := fun w =>
  match body w with
  | (.ok a, w1) => (.ok a, w1)
  | (.error e, w1) => handler e w1

/-- Read `this.state`. -/
def getState : Eff State := fun w => (.ok w.state, w)

/-- The call `this.setState({ loading })` or `this.setState({ loading, error })`. -/
def setState (loading : Bool) (error : Option String) : Eff Unit := fun w =>
  (.ok (),
    { state :=
        match error with
        | none => { w.state with loading := loading }
        | some e => { w.state with loading := loading, error := some e }
      trace := w.trace ++ [Event.setState loading error] })

/-- The call `Alert.alert(title, message)`. -/
def alert (title message : String) : Eff Unit := fun w =>
  (.ok (), { w with trace := w.trace ++ [Event.alert title message] })

/-- An outside call `c` whose result is `r`: the call is recorded, then its
value is returned or its error thrown. -/
def await {α : Type} (c : Call) (r : Except JSError α) : Eff α := fun w =>
  match r with
  | .ok a => (.ok a, { w with trace := w.trace ++ [Event.call c true] })
  | .error e => (.error e, { w with trace := w.trace ++ [Event.call c false] })

/-- JavaScript truthiness of a value that is `null` or a string. -/
def truthy : Option String → Bool
  | none => false
  | some s => s != ""

/-- The constant `PASSCODE_NOT_SET_ERROR` (source line 140). -/
def PASSCODE_NOT_SET_ERROR : String := "Error: Passcode not set."

/-! ## The workflow (`onPressCreate`) -/

/-- The local variable `error` after the validation (source lines 189-194). -/
def validate (env : Env) (st : State) : Option String :=
  if jsLength st.password < 8 then
    some (env.strings "choose_password.password_length_error")
  else if st.password ≠ st.confirmPassword then
    some (env.strings "choose_password.password_dont_match")
  else
    none

/-- The body of the `try` block (source lines 199-223). -/
def tryBlock (env : Env) : Eff Unit := do
  setState true none
  let mnemonic ← await (.exportSeedPhrase "") (env.exportSeedPhrase "")
  let seed := removeDoubleQuotes (JSON_stringify mnemonic)
  let password := (← getState).password
  await (.createNewVaultAndRestore password seed) (env.createNewVaultAndRestore password seed)
  let accessControl :=
    if (← getState).biometryChoice then AccessControl.BIOMETRY_CURRENT_SET_OR_DEVICE_PASSCODE
    else AccessControl.DEVICE_PASSCODE
  let password := (← getState).password
  await (.setGenericPassword "metamask-user" password accessControl)
    (env.setGenericPassword "metamask-user" password accessControl)
  if !(← getState).biometryChoice then
    await (.removeItem "@MetaMask:biometryChoice") (env.removeItem "@MetaMask:biometryChoice")
  else
    let biometryType := (← getState).biometryType
    await (.setItem "@MetaMask:biometryChoice" biometryType)
      (env.setItem "@MetaMask:biometryChoice" biometryType)
  await (.setItem "@MetaMask:existingUser" (some "true"))
    (env.setItem "@MetaMask:existingUser" (some "true"))
  setState false none
  await .passwordSet env.passwordSet
  await (.navigate "AccountBackupStep1" (splitSpace seed))
    (env.navigate "AccountBackupStep1" (splitSpace seed))

/-- The body of the `catch` block (source lines 225-234). -/
def catchBlock (env : Env) (error : JSError) : Eff Unit :=
  if error.toString = PASSCODE_NOT_SET_ERROR then do
    alert (env.strings "choose_password.security_alert_title")
      (env.strings "choose_password.security_alert_message")
    setState false none
  else
    setState false (some error.toString)

/-- The handler `onPressCreate` (source lines 187-237). -/
def onPressCreate (env : Env) : Eff Unit := do
  if (← getState).loading then
    return ()
  else
    let error := validate env (← getState)
    if truthy error then
      alert "Error" (error.getD "")
    else
      tryCatch (tryBlock env) (catchBlock env)

/-- One run of `onPressCreate` from the state `st`, with an empty trace. -/
def run (env : Env) (st : State) : World :=
  (onPressCreate env { state := st, trace := [] }).2

/-! ## Sample surroundings -/

/-- The localisation table used in the examples: every key is shown as such. -/
def sampleStrings (key : String) : String := key

/-- Surroundings in which every call succeeds and the keyring exports
`mnemonic`. -/
def Env.allOk (mnemonic : String) : Env :=
  { strings := sampleStrings
    exportSeedPhrase := fun _ => .ok mnemonic
    createNewVaultAndRestore := fun _ _ => .ok ()
    setGenericPassword := fun _ _ _ => .ok ()
    removeItem := fun _ => .ok ()
    setItem := fun _ _ => .ok ()
    passwordSet := .ok ()
    navigate := fun _ _ => .ok () }

/-- A state with the given passwords, otherwise initial. -/
def State.withPasswords (password confirmPassword : String) : State :=
  { State.initial with password := password, confirmPassword := confirmPassword }

/-! ## The paths of a run -/

/-- A submission that passes the validation: none in flight, at least eight
code units, confirmation equal. -/
def State.valid (st : State) : Prop :=
  st.loading = false ∧ 8 ≤ jsLength st.password ∧ st.password = st.confirmPassword

instance (st : State) : Decidable st.valid := by
  unfold State.valid; infer_instance

/-- The run of the `try`/`catch` statement from the state `st`. -/
def tryWorld (env : Env) (st : State) : World :=
  (tryCatch (tryBlock env) (catchBlock env) { state := st, trace := [] }).2

/-- The value of the local variable `seed` for an exported `mnemonic`. -/
def seedOf (mnemonic : String) : String :=
  removeDoubleQuotes (JSON_stringify mnemonic)

/-- The access control that `authOptions` holds in the state `st`. -/
def policyOf (st : State) : AccessControl :=
  if st.biometryChoice then AccessControl.BIOMETRY_CURRENT_SET_OR_DEVICE_PASSCODE
  else AccessControl.DEVICE_PASSCODE

/-- The write to the key `@MetaMask:biometryChoice` made in the state `st`. -/
def biometryCall (st : State) : Call :=
  if st.biometryChoice then Call.setItem "@MetaMask:biometryChoice" st.biometryType
  else Call.removeItem "@MetaMask:biometryChoice"

/-- The result of `biometryCall st`. -/
def biometryResult (env : Env) (st : State) : Except JSError Unit :=
  if st.biometryChoice then env.setItem "@MetaMask:biometryChoice" st.biometryType
  else env.removeItem "@MetaMask:biometryChoice"

/-- The events of the `catch` block for the thrown value `e`. -/
def catchEvents (env : Env) (e : JSError) : List Event :=
  if e.toString = PASSCODE_NOT_SET_ERROR then
    [Event.alert (env.strings "choose_password.security_alert_title")
        (env.strings "choose_password.security_alert_message"),
      Event.setState false none]
  else
    [Event.setState false (some e.toString)]

/-- The state the `catch` block leaves for the thrown value `e`. -/
def catchState (st : State) (e : JSError) : State :=
  if e.toString = PASSCODE_NOT_SET_ERROR then { st with loading := false }
  else { st with loading := false, error := some e.toString }

/-! ## Notions used in the statements and proofs -/

/-- The value of `this.state.loading` after the `setState` calls of a trace,
starting from `loading`. -/
def loadingAfter (loading : Bool) : List Event → Bool
  | [] => loading
  | Event.setState l _ :: rest => loadingAfter l rest
  | Event.call _ _ :: rest => loadingAfter loading rest
  | Event.alert _ _ :: rest => loadingAfter loading rest

/-- A successful `createNewVaultAndRestore`. -/
def Event.isVaultOk : Event → Bool
  | Event.call (Call.createNewVaultAndRestore _ _) true => true
  | _ => false

/-- A successful `setGenericPassword`. -/
def Event.isStoreOk : Event → Bool
  | Event.call (Call.setGenericPassword _ _ _) true => true
  | _ => false

/-- A call of `AsyncStorage.setItem` on the key `@MetaMask:existingUser`. -/
def Event.isFlagWrite : Event → Bool
  | Event.call (Call.setItem key _) _ => key == "@MetaMask:existingUser"
  | _ => false

/-- Scan of a trace: every flag write comes after a successful vault creation
and a successful credential store (`vault` and `store` tell whether they were
seen before the trace starts). -/
def flagGuarded (vault store : Bool) : List Event → Bool
  | [] => true
  | e :: rest =>
    (!e.isFlagWrite || (vault && store)) &&
      flagGuarded (vault || e.isVaultOk) (store || e.isStoreOk) rest

/-- Surroundings with the given results of `exportSeedPhrase`,
`createNewVaultAndRestore` and `setGenericPassword`; every other call
returns. -/
def Env.failing (exportResult : Except JSError String) (createResult : Except JSError Unit)
    (storeResult : Except JSError Unit) : Env :=
  { strings := sampleStrings
    exportSeedPhrase := fun _ => exportResult
    createNewVaultAndRestore := fun _ _ => createResult
    setGenericPassword := fun _ _ _ => storeResult
    removeItem := fun _ => .ok ()
    setItem := fun _ _ => .ok ()
    passwordSet := .ok ()
    navigate := fun _ _ => .ok () }

/-- A call of `createNewVaultAndRestore`, returned or not. -/
def Event.isVaultCall : Event → Bool
  | Event.call (Call.createNewVaultAndRestore _ _) _ => true
  | _ => false

/-- A call to one of the collaborators. -/
def Event.isCollaboratorCall : Event → Bool
  | Event.call c _ => c.isCollaborator
  | _ => false

/-- Scan of a trace: `loading` is true at every collaborator call. -/
def callsUnderLoading (loading : Bool) : List Event → Bool
  | [] => true
  | e :: rest =>
    (!e.isCollaboratorCall || loading) && callsUnderLoading (loadingAfter loading [e]) rest

/-- The punctuation that the pattern of `onPasswordChange` lists between its
commas: `! @ # $ % ^ & * ? _ ~ - ( )`. -/
def isListedSymbol (c : Char) : Bool :=
  decide (c.toNat ∈ [33, 64, 35, 36, 37, 94, 38, 42, 63, 95, 126, 45, 40, 41])

/-! ## The paths of a run: lemmas -/

theorem catchBlock_eq (env : Env) (e : JSError) (w : World) :
    (catchBlock env e w).2 =
      { state := catchState w.state e, trace := w.trace ++ catchEvents env e } := by
  unfold catchBlock catchState catchEvents
  split <;> simp [bind, Eff.bind, alert, setState]

theorem validate_of_valid (env : Env) (st : State) (h : st.valid) : validate env st = none := by
  obtain ⟨_, h8, heq⟩ := h
  have h1 : ¬ jsLength st.password < 8 := by omega
  unfold validate
  rw [if_neg h1, if_neg (by simpa using heq)]

theorem run_of_loading (env : Env) (st : State) (h : st.loading = true) :
    run env st = { state := st, trace := [] } := by
  simp [run, onPressCreate, getState, bind, Eff.bind, h, pure, Eff.pure]

theorem run_of_truthy (env : Env) (st : State) (hloading : st.loading = false)
    (h : truthy (validate env st) = true) :
    run env st =
      { state := st, trace := [Event.alert "Error" ((validate env st).getD "")] } := by
  simp [run, onPressCreate, getState, bind, Eff.bind, hloading, h, alert]

theorem run_of_falsy (env : Env) (st : State) (hloading : st.loading = false)
    (h : truthy (validate env st) = false) : run env st = tryWorld env st := by
  simp [run, tryWorld, onPressCreate, getState, bind, Eff.bind, hloading, h]

theorem run_of_valid (env : Env) (st : State) (h : st.valid) : run env st = tryWorld env st :=
  run_of_falsy env st h.1 (by simp [validate_of_valid env st h, truthy])

theorem tryWorld_export_error (env : Env) (st : State) (e : JSError)
    (hE : env.exportSeedPhrase "" = .error e) :
    tryWorld env st =
      { state := catchState { st with loading := true } e
        trace :=
          [Event.setState true none, Event.call (.exportSeedPhrase "") false] ++
            catchEvents env e } := by
  simp [tryWorld, tryCatch, tryBlock, bind, Eff.bind, setState, await, getState, hE,
    catchBlock_eq]

theorem tryWorld_create_error (env : Env) (st : State) (m : String) (e : JSError)
    (hE : env.exportSeedPhrase "" = .ok m)
    (hC : env.createNewVaultAndRestore st.password (seedOf m) = .error e) :
    tryWorld env st =
      { state := catchState { st with loading := true } e
        trace :=
          [Event.setState true none, Event.call (.exportSeedPhrase "") true,
            Event.call (.createNewVaultAndRestore st.password (seedOf m)) false] ++
            catchEvents env e } := by
  unfold seedOf at hC
  simp [tryWorld, tryCatch, tryBlock, bind, Eff.bind, setState, await, getState, hE, hC,
    catchBlock_eq, seedOf]

theorem tryWorld_store_error (env : Env) (st : State) (m : String) (e : JSError)
    (hE : env.exportSeedPhrase "" = .ok m)
    (hC : env.createNewVaultAndRestore st.password (seedOf m) = .ok ())
    (hS : env.setGenericPassword "metamask-user" st.password (policyOf st) = .error e) :
    tryWorld env st =
      { state := catchState { st with loading := true } e
        trace :=
          [Event.setState true none, Event.call (.exportSeedPhrase "") true,
            Event.call (.createNewVaultAndRestore st.password (seedOf m)) true,
            Event.call (.setGenericPassword "metamask-user" st.password (policyOf st)) false] ++
            catchEvents env e } := by
  unfold seedOf at hC
  unfold policyOf at hS
  simp [tryWorld, tryCatch, tryBlock, bind, Eff.bind, setState, await, getState, hE, hC, hS,
    catchBlock_eq, seedOf, policyOf]

theorem tryWorld_biometry_error (env : Env) (st : State) (m : String) (e : JSError)
    (hE : env.exportSeedPhrase "" = .ok m)
    (hC : env.createNewVaultAndRestore st.password (seedOf m) = .ok ())
    (hS : env.setGenericPassword "metamask-user" st.password (policyOf st) = .ok ())
    (hB : biometryResult env st = .error e) :
    tryWorld env st =
      { state := catchState { st with loading := true } e
        trace :=
          [Event.setState true none, Event.call (.exportSeedPhrase "") true,
            Event.call (.createNewVaultAndRestore st.password (seedOf m)) true,
            Event.call (.setGenericPassword "metamask-user" st.password (policyOf st)) true,
            Event.call (biometryCall st) false] ++
            catchEvents env e } := by
  unfold seedOf at hC
  unfold policyOf at hS
  unfold biometryResult at hB
  cases hb : st.biometryChoice <;> simp only [hb, if_true, if_false, Bool.false_eq_true] at hS hB <;>
    simp [tryWorld, tryCatch, tryBlock, bind, Eff.bind, setState, await, getState, hE, hC, hS,
      hB, hb, catchBlock_eq, seedOf, policyOf, biometryCall]

theorem tryWorld_flag_error (env : Env) (st : State) (m : String) (e : JSError)
    (hE : env.exportSeedPhrase "" = .ok m)
    (hC : env.createNewVaultAndRestore st.password (seedOf m) = .ok ())
    (hS : env.setGenericPassword "metamask-user" st.password (policyOf st) = .ok ())
    (hB : biometryResult env st = .ok ())
    (hF : env.setItem "@MetaMask:existingUser" (some "true") = .error e) :
    tryWorld env st =
      { state := catchState { st with loading := true } e
        trace :=
          [Event.setState true none, Event.call (.exportSeedPhrase "") true,
            Event.call (.createNewVaultAndRestore st.password (seedOf m)) true,
            Event.call (.setGenericPassword "metamask-user" st.password (policyOf st)) true,
            Event.call (biometryCall st) true,
            Event.call (.setItem "@MetaMask:existingUser" (some "true")) false] ++
            catchEvents env e } := by
  unfold seedOf at hC
  unfold policyOf at hS
  unfold biometryResult at hB
  cases hb : st.biometryChoice <;> simp only [hb, if_true, if_false, Bool.false_eq_true] at hS hB <;>
    simp [tryWorld, tryCatch, tryBlock, bind, Eff.bind, setState, await, getState, hE, hC, hS,
      hB, hF, hb, catchBlock_eq, seedOf, policyOf, biometryCall]

theorem tryWorld_passwordSet_error (env : Env) (st : State) (m : String) (e : JSError)
    (hE : env.exportSeedPhrase "" = .ok m)
    (hC : env.createNewVaultAndRestore st.password (seedOf m) = .ok ())
    (hS : env.setGenericPassword "metamask-user" st.password (policyOf st) = .ok ())
    (hB : biometryResult env st = .ok ())
    (hF : env.setItem "@MetaMask:existingUser" (some "true") = .ok ())
    (hP : env.passwordSet = .error e) :
    tryWorld env st =
      { state := catchState { st with loading := false } e
        trace :=
          [Event.setState true none, Event.call (.exportSeedPhrase "") true,
            Event.call (.createNewVaultAndRestore st.password (seedOf m)) true,
            Event.call (.setGenericPassword "metamask-user" st.password (policyOf st)) true,
            Event.call (biometryCall st) true,
            Event.call (.setItem "@MetaMask:existingUser" (some "true")) true,
            Event.setState false none, Event.call .passwordSet false] ++
            catchEvents env e } := by
  unfold seedOf at hC
  unfold policyOf at hS
  unfold biometryResult at hB
  cases hb : st.biometryChoice <;> simp only [hb, if_true, if_false, Bool.false_eq_true] at hS hB <;>
    simp [tryWorld, tryCatch, tryBlock, bind, Eff.bind, setState, await, getState, hE, hC, hS,
      hB, hF, hP, hb, catchBlock_eq, seedOf, policyOf, biometryCall]

theorem tryWorld_navigate_error (env : Env) (st : State) (m : String) (e : JSError)
    (hE : env.exportSeedPhrase "" = .ok m)
    (hC : env.createNewVaultAndRestore st.password (seedOf m) = .ok ())
    (hS : env.setGenericPassword "metamask-user" st.password (policyOf st) = .ok ())
    (hB : biometryResult env st = .ok ())
    (hF : env.setItem "@MetaMask:existingUser" (some "true") = .ok ())
    (hP : env.passwordSet = .ok ())
    (hN : env.navigate "AccountBackupStep1" (splitSpace (seedOf m)) = .error e) :
    tryWorld env st =
      { state := catchState { st with loading := false } e
        trace :=
          [Event.setState true none, Event.call (.exportSeedPhrase "") true,
            Event.call (.createNewVaultAndRestore st.password (seedOf m)) true,
            Event.call (.setGenericPassword "metamask-user" st.password (policyOf st)) true,
            Event.call (biometryCall st) true,
            Event.call (.setItem "@MetaMask:existingUser" (some "true")) true,
            Event.setState false none, Event.call .passwordSet true,
            Event.call (.navigate "AccountBackupStep1" (splitSpace (seedOf m))) false] ++
            catchEvents env e } := by
  unfold seedOf at hC hN
  unfold policyOf at hS
  unfold biometryResult at hB
  cases hb : st.biometryChoice <;> simp only [hb, if_true, if_false, Bool.false_eq_true] at hS hB <;>
    simp [tryWorld, tryCatch, tryBlock, bind, Eff.bind, setState, await, getState, hE, hC, hS,
      hB, hF, hP, hN, hb, catchBlock_eq, seedOf, policyOf, biometryCall]

theorem tryWorld_success (env : Env) (st : State) (m : String)
    (hE : env.exportSeedPhrase "" = .ok m)
    (hC : env.createNewVaultAndRestore st.password (seedOf m) = .ok ())
    (hS : env.setGenericPassword "metamask-user" st.password (policyOf st) = .ok ())
    (hB : biometryResult env st = .ok ())
    (hF : env.setItem "@MetaMask:existingUser" (some "true") = .ok ())
    (hP : env.passwordSet = .ok ())
    (hN : env.navigate "AccountBackupStep1" (splitSpace (seedOf m)) = .ok ()) :
    tryWorld env st =
      { state := { st with loading := false }
        trace :=
          [Event.setState true none, Event.call (.exportSeedPhrase "") true,
            Event.call (.createNewVaultAndRestore st.password (seedOf m)) true,
            Event.call (.setGenericPassword "metamask-user" st.password (policyOf st)) true,
            Event.call (biometryCall st) true,
            Event.call (.setItem "@MetaMask:existingUser" (some "true")) true,
            Event.setState false none, Event.call .passwordSet true,
            Event.call (.navigate "AccountBackupStep1" (splitSpace (seedOf m))) true] } := by
  unfold seedOf at hC hN
  unfold policyOf at hS
  unfold biometryResult at hB
  cases hb : st.biometryChoice <;> simp only [hb, if_true, if_false, Bool.false_eq_true] at hS hB <;>
    simp [tryWorld, tryCatch, tryBlock, bind, Eff.bind, setState, await, getState, hE, hC, hS,
      hB, hF, hP, hN, hb, seedOf, policyOf, biometryCall]

/-- Case analysis on the runs of the `try`/`catch` statement: a property that
holds of the world left by each of the eight ways the statement can end holds of
`tryWorld env st`. -/
theorem tryWorld_cases (env : Env) (st : State) (P : World → Prop)
    (h1 : ∀ e,
      env.exportSeedPhrase "" = .error e →
      P
        { state := catchState { st with loading := true } e
          trace :=
            [Event.setState true none,
              Event.call (.exportSeedPhrase "") false] ++
              catchEvents env e })
    (h2 : ∀ m e,
      env.exportSeedPhrase "" = .ok m →
      env.createNewVaultAndRestore st.password (seedOf m) = .error e →
      P
        { state := catchState { st with loading := true } e
          trace :=
            [Event.setState true none,
              Event.call (.exportSeedPhrase "") true,
              Event.call (.createNewVaultAndRestore st.password (seedOf m)) false] ++
              catchEvents env e })
    (h3 : ∀ m e,
      env.exportSeedPhrase "" = .ok m →
      env.createNewVaultAndRestore st.password (seedOf m) = .ok () →
      env.setGenericPassword "metamask-user" st.password (policyOf st) = .error e →
      P
        { state := catchState { st with loading := true } e
          trace :=
            [Event.setState true none,
              Event.call (.exportSeedPhrase "") true,
              Event.call (.createNewVaultAndRestore st.password (seedOf m)) true,
              Event.call (.setGenericPassword "metamask-user" st.password (policyOf st)) false] ++
              catchEvents env e })
    (h4 : ∀ m e,
      env.exportSeedPhrase "" = .ok m →
      env.createNewVaultAndRestore st.password (seedOf m) = .ok () →
      env.setGenericPassword "metamask-user" st.password (policyOf st) = .ok () →
      biometryResult env st = .error e →
      P
        { state := catchState { st with loading := true } e
          trace :=
            [Event.setState true none,
              Event.call (.exportSeedPhrase "") true,
              Event.call (.createNewVaultAndRestore st.password (seedOf m)) true,
              Event.call (.setGenericPassword "metamask-user" st.password (policyOf st)) true,
              Event.call (biometryCall st) false] ++
              catchEvents env e })
    (h5 : ∀ m e,
      env.exportSeedPhrase "" = .ok m →
      env.createNewVaultAndRestore st.password (seedOf m) = .ok () →
      env.setGenericPassword "metamask-user" st.password (policyOf st) = .ok () →
      biometryResult env st = .ok () →
      env.setItem "@MetaMask:existingUser" (some "true") = .error e →
      P
        { state := catchState { st with loading := true } e
          trace :=
            [Event.setState true none,
              Event.call (.exportSeedPhrase "") true,
              Event.call (.createNewVaultAndRestore st.password (seedOf m)) true,
              Event.call (.setGenericPassword "metamask-user" st.password (policyOf st)) true,
              Event.call (biometryCall st) true,
              Event.call (.setItem "@MetaMask:existingUser" (some "true")) false] ++
              catchEvents env e })
    (h6 : ∀ m e,
      env.exportSeedPhrase "" = .ok m →
      env.createNewVaultAndRestore st.password (seedOf m) = .ok () →
      env.setGenericPassword "metamask-user" st.password (policyOf st) = .ok () →
      biometryResult env st = .ok () →
      env.setItem "@MetaMask:existingUser" (some "true") = .ok () →
      env.passwordSet = .error e →
      P
        { state := catchState { st with loading := false } e
          trace :=
            [Event.setState true none,
              Event.call (.exportSeedPhrase "") true,
              Event.call (.createNewVaultAndRestore st.password (seedOf m)) true,
              Event.call (.setGenericPassword "metamask-user" st.password (policyOf st)) true,
              Event.call (biometryCall st) true,
              Event.call (.setItem "@MetaMask:existingUser" (some "true")) true,
              Event.setState false none,
              Event.call .passwordSet false] ++
              catchEvents env e })
    (h7 : ∀ m e,
      env.exportSeedPhrase "" = .ok m →
      env.createNewVaultAndRestore st.password (seedOf m) = .ok () →
      env.setGenericPassword "metamask-user" st.password (policyOf st) = .ok () →
      biometryResult env st = .ok () →
      env.setItem "@MetaMask:existingUser" (some "true") = .ok () →
      env.passwordSet = .ok () →
      env.navigate "AccountBackupStep1" (splitSpace (seedOf m)) = .error e →
      P
        { state := catchState { st with loading := false } e
          trace :=
            [Event.setState true none,
              Event.call (.exportSeedPhrase "") true,
              Event.call (.createNewVaultAndRestore st.password (seedOf m)) true,
              Event.call (.setGenericPassword "metamask-user" st.password (policyOf st)) true,
              Event.call (biometryCall st) true,
              Event.call (.setItem "@MetaMask:existingUser" (some "true")) true,
              Event.setState false none,
              Event.call .passwordSet true,
              Event.call (.navigate "AccountBackupStep1" (splitSpace (seedOf m))) false] ++
              catchEvents env e })
    (h8 : ∀ m,
      env.exportSeedPhrase "" = .ok m →
      env.createNewVaultAndRestore st.password (seedOf m) = .ok () →
      env.setGenericPassword "metamask-user" st.password (policyOf st) = .ok () →
      biometryResult env st = .ok () →
      env.setItem "@MetaMask:existingUser" (some "true") = .ok () →
      env.passwordSet = .ok () →
      env.navigate "AccountBackupStep1" (splitSpace (seedOf m)) = .ok () →
      P
        { state := { st with loading := false }
          trace :=
            [Event.setState true none,
              Event.call (.exportSeedPhrase "") true,
              Event.call (.createNewVaultAndRestore st.password (seedOf m)) true,
              Event.call (.setGenericPassword "metamask-user" st.password (policyOf st)) true,
              Event.call (biometryCall st) true,
              Event.call (.setItem "@MetaMask:existingUser" (some "true")) true,
              Event.setState false none,
              Event.call .passwordSet true,
              Event.call (.navigate "AccountBackupStep1" (splitSpace (seedOf m))) true] }) :
    P (tryWorld env st) := by
  rcases hE : env.exportSeedPhrase "" with e | m
  · rw [tryWorld_export_error env st e hE]; exact h1 e hE
  rcases hC : env.createNewVaultAndRestore st.password (seedOf m) with e | _
  · rw [tryWorld_create_error env st m e hE hC]; exact h2 m e hE hC
  rcases hS : env.setGenericPassword "metamask-user" st.password (policyOf st) with e | _
  · rw [tryWorld_store_error env st m e hE hC hS]; exact h3 m e hE hC hS
  rcases hB : biometryResult env st with e | _
  · rw [tryWorld_biometry_error env st m e hE hC hS hB]; exact h4 m e hE hC hS hB
  rcases hF : env.setItem "@MetaMask:existingUser" (some "true") with e | _
  · rw [tryWorld_flag_error env st m e hE hC hS hB hF]; exact h5 m e hE hC hS hB hF
  rcases hP : env.passwordSet with e | _
  · rw [tryWorld_passwordSet_error env st m e hE hC hS hB hF hP]; exact h6 m e hE hC hS hB hF hP
  rcases hN : env.navigate "AccountBackupStep1" (splitSpace (seedOf m)) with e | _
  · rw [tryWorld_navigate_error env st m e hE hC hS hB hF hP hN]
    exact h7 m e hE hC hS hB hF hP hN
  · rw [tryWorld_success env st m hE hC hS hB hF hP hN]; exact h8 m hE hC hS hB hF hP hN

/-- Case analysis on the runs of `onPressCreate`: either nothing happens (an
invocation is in flight), or a validation alert is raised, or the
`try`/`catch` statement runs. -/
theorem run_cases (env : Env) (st : State) :
    run env st = { state := st, trace := [] } ∨
      (∃ msg, run env st = { state := st, trace := [Event.alert "Error" msg] }) ∨
      (st.loading = false ∧ run env st = tryWorld env st) := by
  cases hl : st.loading
  · cases ht : truthy (validate env st)
    · exact Or.inr (Or.inr ⟨rfl, run_of_falsy env st hl ht⟩)
    · exact Or.inr (Or.inl ⟨_, run_of_truthy env st hl ht⟩)
  · exact Or.inl (run_of_loading env st hl)

/-! ## Validation failures -/

/-- C1: from a state with no invocation in flight and a password of fewer than
eight code units (whatever the confirmation and the biometric preference),
`onPressCreate` calls nothing outside the component: its whole trace is the
alert showing the `password_length_error` message, and the state, in particular
`loading = false`, is unchanged.  The message is taken from the localisation
table, which is assumed to hold a non-empty text for it. -/
theorem onPressCreate_password_too_short (env : Env) (st : State)
    (hloading : st.loading = false) (hlen : jsLength st.password < 8)
    (hmsg : env.strings "choose_password.password_length_error" ≠ "") :
    (run env st).trace =
        [Event.alert "Error" (env.strings "choose_password.password_length_error")] ∧
      (∀ c b, Event.call c b ∉ (run env st).trace) ∧
      (run env st).state = st ∧ (run env st).state.loading = false := by
  have hrun : run env st =
      { state := st
        trace := [Event.alert "Error" (env.strings "choose_password.password_length_error")] } := by
    simp [run, onPressCreate, getState, bind, Eff.bind, validate, hlen, hloading, truthy, hmsg,
      alert]
  rw [hrun]
  simp [hloading]

/-- Witness of C1: the password `abc` with a different confirmation. -/
theorem onPressCreate_password_too_short_witness :
    (run (Env.allOk "alpha beta") (State.withPasswords "abc" "xyz")).trace =
        [Event.alert "Error" ((Env.allOk "alpha beta").strings "choose_password.password_length_error")] ∧
      (∀ c b, Event.call c b ∉ (run (Env.allOk "alpha beta") (State.withPasswords "abc" "xyz")).trace) ∧
      (run (Env.allOk "alpha beta") (State.withPasswords "abc" "xyz")).state =
        State.withPasswords "abc" "xyz" ∧
      (run (Env.allOk "alpha beta") (State.withPasswords "abc" "xyz")).state.loading = false :=
  onPressCreate_password_too_short (Env.allOk "alpha beta") (State.withPasswords "abc" "xyz")
    (by decide) (by decide) (by decide)

/-- C2 as stated fails: the passwords `abc` and `abd` differ, yet the outcome is
the `password_length_error` alert, not the `password_dont_match` alert, because
the length is checked first. -/
theorem onPressCreate_mismatch_short_counterexample :
    (State.withPasswords "abc" "abd").loading = false ∧
      (State.withPasswords "abc" "abd").password ≠ (State.withPasswords "abc" "abd").confirmPassword ∧
      (run (Env.allOk "alpha beta") (State.withPasswords "abc" "abd")).trace =
        [Event.alert "Error" "choose_password.password_length_error"] ∧
      (run (Env.allOk "alpha beta") (State.withPasswords "abc" "abd")).trace ≠
        [Event.alert "Error"
          ((Env.allOk "alpha beta").strings "choose_password.password_dont_match")] := by
  decide

/-- C2, amended: from a state with no invocation in flight and a password that
differs from its confirmation, `onPressCreate` calls nothing outside the
component and leaves the state unchanged; its whole trace is the
`password_dont_match` alert when the password has at least eight code units,
and the `password_length_error` alert when it has fewer.  Both messages are
assumed to be non-empty texts of the localisation table. -/
theorem onPressCreate_password_mismatch (env : Env) (st : State)
    (hloading : st.loading = false) (hne : st.password ≠ st.confirmPassword)
    (hshort : env.strings "choose_password.password_length_error" ≠ "")
    (hmsg : env.strings "choose_password.password_dont_match" ≠ "") :
    (∀ c b, Event.call c b ∉ (run env st).trace) ∧
      (run env st).state = st ∧
      (8 ≤ jsLength st.password →
        (run env st).trace =
          [Event.alert "Error" (env.strings "choose_password.password_dont_match")]) ∧
      (jsLength st.password < 8 →
        (run env st).trace =
          [Event.alert "Error" (env.strings "choose_password.password_length_error")]) := by
  by_cases hlen : jsLength st.password < 8
  · have hrun : run env st =
        { state := st
          trace :=
            [Event.alert "Error" (env.strings "choose_password.password_length_error")] } := by
      simp [run, onPressCreate, getState, bind, Eff.bind, validate, hlen, hloading, truthy,
        hshort, alert]
    rw [hrun]
    refine ⟨by simp, rfl, fun h => absurd hlen (by omega), fun _ => rfl⟩
  · have hrun : run env st =
        { state := st
          trace :=
            [Event.alert "Error" (env.strings "choose_password.password_dont_match")] } := by
      simp [run, onPressCreate, getState, bind, Eff.bind, validate, hlen, hloading, truthy,
        hmsg, hne, alert]
    rw [hrun]
    refine ⟨by simp, rfl, fun _ => rfl, fun h => absurd h hlen⟩

/-- Witness of the amended C2: the passwords `abcdefgh` and `abcdefgx`. -/
theorem onPressCreate_password_mismatch_witness :
    (run (Env.allOk "alpha beta") (State.withPasswords "abcdefgh" "abcdefgx")).trace =
      [Event.alert "Error" "choose_password.password_dont_match"] :=
  (onPressCreate_password_mismatch (Env.allOk "alpha beta")
    (State.withPasswords "abcdefgh" "abcdefgx") (by decide) (by decide) (by decide)
    (by decide)).2.2.1 (by decide)

/-! ## Ordering of the flag write -/

theorem flagGuarded_sound :
    ∀ (tr : List Event) (vault store : Bool) (pre post : List Event) (y : Event),
      flagGuarded vault store tr = true → tr = pre ++ y :: post → y.isFlagWrite = true →
        (vault = true ∨ ∃ e ∈ pre, e.isVaultOk = true) ∧
          (store = true ∨ ∃ e ∈ pre, e.isStoreOk = true) := by
  intro tr
  induction tr with
  | nil => intro vault store pre post y _ h; simp at h
  | cons e rest ih =>
    intro vault store pre post y hg h hy
    simp only [flagGuarded, Bool.and_eq_true, Bool.or_eq_true, Bool.not_eq_true'] at hg
    cases pre with
    | nil =>
      simp only [List.nil_append, List.cons.injEq] at h
      obtain ⟨rfl, _⟩ := h
      rcases hg.1 with h1 | h1
      · rw [hy] at h1; exact absurd h1 (by decide)
      · exact ⟨Or.inl h1.1, Or.inl h1.2⟩
    | cons z pre1 =>
      simp only [List.cons_append, List.cons.injEq] at h
      obtain ⟨rfl, hrest⟩ := h
      have key := ih _ _ pre1 post y hg.2 hrest hy
      constructor
      · rcases key.1 with h1 | ⟨x, hx, hx1⟩
        · rcases Bool.or_eq_true_iff.1 h1 with h2 | h2
          · exact Or.inl h2
          · exact Or.inr ⟨e, List.mem_cons_self _ _, h2⟩
        · exact Or.inr ⟨x, List.mem_cons_of_mem _ hx, hx1⟩
      · rcases key.2 with h1 | ⟨x, hx, hx1⟩
        · rcases Bool.or_eq_true_iff.1 h1 with h2 | h2
          · exact Or.inl h2
          · exact Or.inr ⟨e, List.mem_cons_self _ _, h2⟩
        · exact Or.inr ⟨x, List.mem_cons_of_mem _ hx, hx1⟩

theorem isVaultOk_iff (e : Event) :
    e.isVaultOk = true ↔ ∃ p s, e = Event.call (.createNewVaultAndRestore p s) true := by
  cases e with
  | call c r => cases c <;> cases r <;> simp [Event.isVaultOk]
  | alert t m => simp [Event.isVaultOk]
  | setState l er => simp [Event.isVaultOk]

theorem isStoreOk_iff (e : Event) :
    e.isStoreOk = true ↔ ∃ k p a, e = Event.call (.setGenericPassword k p a) true := by
  cases e with
  | call c r => cases c <;> cases r <;> simp [Event.isStoreOk]
  | alert t m => simp [Event.isStoreOk]
  | setState l er => simp [Event.isStoreOk]

theorem run_flagGuarded (env : Env) (st : State) :
    flagGuarded false false (run env st).trace = true := by
  rcases run_cases env st with h | ⟨msg, h⟩ | ⟨_, h⟩
  · rw [h]; rfl
  · rw [h]; rfl
  · rw [h]
    refine tryWorld_cases env st (fun w => flagGuarded false false w.trace = true)
      ?_ ?_ ?_ ?_ ?_ ?_ ?_ ?_
    all_goals intros
    all_goals simp only [catchEvents, biometryCall]
    all_goals split_ifs <;>
      simp [flagGuarded, Event.isFlagWrite, Event.isVaultOk, Event.isStoreOk]

/-- C3: in every run of `onPressCreate`, whatever the collaborators answer, a
call `AsyncStorage.setItem('@MetaMask:existingUser', ...)` is preceded in the
trace by a `createNewVaultAndRestore` and by a `setGenericPassword` that both
returned.  And in a valid submission in which the five collaborator calls
return, the trace is the five successful calls up to the biometry write, then
the flag write `setItem('@MetaMask:existingUser', 'true')`, then
`setState({ loading: false })` and the hand-off `passwordSet()` (followed by
`navigate` and, if one of the two throws, by the `catch` block), none of which
is a collaborator call: the flag write occurs exactly once, after
`setGenericPassword` and before the hand-off. -/
theorem existingUser_flag_after_vault_and_credential (env : Env) (st : State) :
    (∀ pre post v b,
        (run env st).trace =
            pre ++ Event.call (.setItem "@MetaMask:existingUser" v) b :: post →
          (∃ p s, Event.call (.createNewVaultAndRestore p s) true ∈ pre) ∧
            ∃ k p a, Event.call (.setGenericPassword k p a) true ∈ pre) ∧
      (st.valid → ∀ m, env.exportSeedPhrase "" = .ok m →
        env.createNewVaultAndRestore st.password (seedOf m) = .ok () →
        env.setGenericPassword "metamask-user" st.password (policyOf st) = .ok () →
        biometryResult env st = .ok () →
        env.setItem "@MetaMask:existingUser" (some "true") = .ok () →
        ∃ r rest,
          (run env st).trace =
              [Event.setState true none, Event.call (.exportSeedPhrase "") true,
                Event.call (.createNewVaultAndRestore st.password (seedOf m)) true,
                Event.call (.setGenericPassword "metamask-user" st.password (policyOf st)) true,
                Event.call (biometryCall st) true,
                Event.call (.setItem "@MetaMask:existingUser" (some "true")) true,
                Event.setState false none, Event.call .passwordSet r] ++ rest ∧
            (∀ c b, Event.call c b ∈ rest → c.isCollaborator = false) ∧
            (run env st).trace.countP Event.isFlagWrite = 1) := by
  constructor
  · intro pre post v b h
    have hs := flagGuarded_sound _ false false pre post _ (run_flagGuarded env st) h
      (by simp [Event.isFlagWrite])
    obtain ⟨h1, h2⟩ := hs
    constructor
    · rcases h1 with h1 | ⟨e, he, h1⟩
      · exact absurd h1 (by decide)
      · obtain ⟨p, s, rfl⟩ := (isVaultOk_iff e).1 h1
        exact ⟨p, s, he⟩
    · rcases h2 with h2 | ⟨e, he, h2⟩
      · exact absurd h2 (by decide)
      · obtain ⟨k, p, a, rfl⟩ := (isStoreOk_iff e).1 h2
        exact ⟨k, p, a, he⟩
  · intro hv m hE hC hS hB hF
    rw [run_of_valid env st hv]
    rcases hP : env.passwordSet with e | _
    · rw [tryWorld_passwordSet_error env st m e hE hC hS hB hF hP]
      refine ⟨false, catchEvents env e, rfl, ?_, ?_⟩
      · unfold catchEvents; split_ifs <;> simp
      · unfold catchEvents biometryCall
        split_ifs <;> simp [List.countP_cons, Event.isFlagWrite]
    · rcases hN : env.navigate "AccountBackupStep1" (splitSpace (seedOf m)) with e | _
      · rw [tryWorld_navigate_error env st m e hE hC hS hB hF hP hN]
        refine ⟨true, Event.call (.navigate "AccountBackupStep1" (splitSpace (seedOf m))) false ::
          catchEvents env e, rfl, ?_, ?_⟩
        · unfold catchEvents; split_ifs <;> simp [Call.isCollaborator]
        · unfold catchEvents biometryCall
          split_ifs <;> simp [List.countP_cons, Event.isFlagWrite]
      · rw [tryWorld_success env st m hE hC hS hB hF hP hN]
        refine ⟨true, [Event.call (.navigate "AccountBackupStep1" (splitSpace (seedOf m))) true],
          rfl, ?_, ?_⟩
        · simp [Call.isCollaborator]
        · unfold biometryCall
          split_ifs <;> simp [List.countP_cons, Event.isFlagWrite]

/-- Witness of C3: the password `abcdefg1!`, every call returning. -/
theorem existingUser_flag_after_vault_and_credential_witness :
    ∃ r rest,
      (run (Env.allOk "alpha beta") (State.withPasswords "abcdefg1!" "abcdefg1!")).trace =
          [Event.setState true none, Event.call (.exportSeedPhrase "") true,
            Event.call (.createNewVaultAndRestore "abcdefg1!" (seedOf "alpha beta")) true,
            Event.call (.setGenericPassword "metamask-user" "abcdefg1!"
              (policyOf (State.withPasswords "abcdefg1!" "abcdefg1!"))) true,
            Event.call (biometryCall (State.withPasswords "abcdefg1!" "abcdefg1!")) true,
            Event.call (.setItem "@MetaMask:existingUser" (some "true")) true,
            Event.setState false none, Event.call .passwordSet r] ++ rest ∧
        (∀ c b, Event.call c b ∈ rest → c.isCollaborator = false) ∧
        (run (Env.allOk "alpha beta")
          (State.withPasswords "abcdefg1!" "abcdefg1!")).trace.countP Event.isFlagWrite = 1 :=
  (existingUser_flag_after_vault_and_credential (Env.allOk "alpha beta")
    (State.withPasswords "abcdefg1!" "abcdefg1!")).2 (by decide) "alpha beta" rfl rfl rfl rfl rfl

/-! ## Failure of the credential store -/

/-- C4: in a valid submission in which `exportSeedPhrase` and
`createNewVaultAndRestore` return and `setGenericPassword` throws a value whose
string form is `Error: Passcode not set.`, the trace is: `setState` of
`loading`, the three calls, the security alert, `setState({ loading: false })`.
So `createNewVaultAndRestore` is called exactly once, no `AsyncStorage` write
is made, the security alert is raised, and no generic error is recorded: no
`setState` carries an `error` key and `this.state.error` is what it was. -/
theorem onPressCreate_passcode_not_set (env : Env) (st : State) (m : String) (e : JSError)
    (hv : st.valid) (hE : env.exportSeedPhrase "" = .ok m)
    (hC : env.createNewVaultAndRestore st.password (seedOf m) = .ok ())
    (hS : env.setGenericPassword "metamask-user" st.password (policyOf st) = .error e)
    (he : e.toString = PASSCODE_NOT_SET_ERROR) :
    (run env st).trace =
        [Event.setState true none, Event.call (.exportSeedPhrase "") true,
          Event.call (.createNewVaultAndRestore st.password (seedOf m)) true,
          Event.call (.setGenericPassword "metamask-user" st.password (policyOf st)) false,
          Event.alert (env.strings "choose_password.security_alert_title")
            (env.strings "choose_password.security_alert_message"),
          Event.setState false none] ∧
      (run env st).trace.countP Event.isVaultCall = 1 ∧
      (∀ k v b, Event.call (.setItem k v) b ∉ (run env st).trace) ∧
      (∀ k b, Event.call (.removeItem k) b ∉ (run env st).trace) ∧
      (∀ l d, Event.setState l (some d) ∉ (run env st).trace) ∧
      (run env st).state = { st with loading := false } ∧
      (run env st).state.error = st.error := by
  have hrun : run env st =
      { state := { st with loading := false }
        trace :=
          [Event.setState true none, Event.call (.exportSeedPhrase "") true,
            Event.call (.createNewVaultAndRestore st.password (seedOf m)) true,
            Event.call (.setGenericPassword "metamask-user" st.password (policyOf st)) false,
            Event.alert (env.strings "choose_password.security_alert_title")
              (env.strings "choose_password.security_alert_message"),
            Event.setState false none] } := by
    rw [run_of_valid env st hv, tryWorld_store_error env st m e hE hC hS]
    simp [catchState, catchEvents, he]
  rw [hrun]
  simp [List.countP_cons, Event.isVaultCall]

/-- Witness of C4: the keychain rejects the password because no passcode is
set on the device. -/
theorem onPressCreate_passcode_not_set_witness :
    (run (Env.failing (.ok "alpha beta") (.ok ()) (.error ⟨"Error: Passcode not set."⟩))
        (State.withPasswords "abcdefg1!" "abcdefg1!")).trace.countP Event.isVaultCall = 1 :=
  (onPressCreate_passcode_not_set
    (Env.failing (.ok "alpha beta") (.ok ()) (.error ⟨"Error: Passcode not set."⟩))
    (State.withPasswords "abcdefg1!" "abcdefg1!") "alpha beta" ⟨"Error: Passcode not set."⟩
    (by decide) rfl rfl rfl rfl).2.1

/-! ## Failure of the vault creation -/

/-- C5 as stated fails: when `exportSeedPhrase` throws a value whose string form
is `Error: Passcode not set.`, the outcome is the security alert and no error
detail is recorded. -/
theorem onPressCreate_vault_error_counterexample :
    (State.withPasswords "abcdefgh" "abcdefgh").valid ∧
      (run (Env.failing (.error ⟨"Error: Passcode not set."⟩) (.ok ()) (.ok ()))
          (State.withPasswords "abcdefgh" "abcdefgh")).state.error ≠
        some "Error: Passcode not set." ∧
      (run (Env.failing (.error ⟨"Error: Passcode not set."⟩) (.ok ()) (.ok ()))
          (State.withPasswords "abcdefgh" "abcdefgh")).trace =
        [Event.setState true none, Event.call (.exportSeedPhrase "") false,
          Event.alert "choose_password.security_alert_title"
            "choose_password.security_alert_message",
          Event.setState false none] := by
  decide

/-- C5, amended: in a valid submission in which `exportSeedPhrase` or
`createNewVaultAndRestore` throws `e`, neither `setGenericPassword` nor an
`AsyncStorage` write is called and `loading` is false at the end.  When the
string form of `e` is not `Error: Passcode not set.`, the outcome is the generic
error carrying that string form: the last step is
`setState({ loading: false, error })`, no alert is raised, and the final state
is the initial one with `error` set.  When it is, the outcome is the security
alert, no `setState` carries an `error` key and `error` is left as it was. -/
theorem onPressCreate_vault_error (env : Env) (st : State) (e : JSError) (hv : st.valid)
    (h : env.exportSeedPhrase "" = .error e ∨
      ∃ m, env.exportSeedPhrase "" = .ok m ∧
        env.createNewVaultAndRestore st.password (seedOf m) = .error e) :
    (∀ k p a b, Event.call (.setGenericPassword k p a) b ∉ (run env st).trace) ∧
      (∀ k v b, Event.call (.setItem k v) b ∉ (run env st).trace) ∧
      (∀ k b, Event.call (.removeItem k) b ∉ (run env st).trace) ∧
      (run env st).state.loading = false ∧
      (e.toString ≠ PASSCODE_NOT_SET_ERROR →
        (run env st).state = { st with loading := false, error := some e.toString } ∧
          (run env st).trace.getLast? = some (Event.setState false (some e.toString)) ∧
          ∀ t msg, Event.alert t msg ∉ (run env st).trace) ∧
      (e.toString = PASSCODE_NOT_SET_ERROR →
        (run env st).state = { st with loading := false } ∧
          Event.alert (env.strings "choose_password.security_alert_title")
              (env.strings "choose_password.security_alert_message") ∈ (run env st).trace ∧
          ∀ l d, Event.setState l (some d) ∉ (run env st).trace) := by
  rw [run_of_valid env st hv]
  rcases h with hE | ⟨m, hE, hC⟩
  · rw [tryWorld_export_error env st e hE]
    by_cases he : e.toString = PASSCODE_NOT_SET_ERROR
    · simp [catchState, catchEvents, he]
    · simp [catchState, catchEvents, he]
  · rw [tryWorld_create_error env st m e hE hC]
    by_cases he : e.toString = PASSCODE_NOT_SET_ERROR
    · simp [catchState, catchEvents, he]
    · simp [catchState, catchEvents, he]

/-- Witness of the amended C5: the keyring refuses to export the seed phrase. -/
theorem onPressCreate_vault_error_witness :
    (run (Env.failing (.error ⟨"Error: Invalid password"⟩) (.ok ()) (.ok ()))
        (State.withPasswords "abcdefgh" "abcdefgh")).state =
      { State.withPasswords "abcdefgh" "abcdefgh" with
        loading := false, error := some "Error: Invalid password" } :=
  ((onPressCreate_vault_error (Env.failing (.error ⟨"Error: Invalid password"⟩) (.ok ()) (.ok ()))
    (State.withPasswords "abcdefgh" "abcdefgh") ⟨"Error: Invalid password"⟩ (by decide)
    (Or.inl rfl)).2.2.2.2.1 (by decide)).1

/-! ## The in-flight guard -/

theorem loadingAfter_cons (loading : Bool) (e : Event) (rest : List Event) :
    loadingAfter loading (e :: rest) = loadingAfter (loadingAfter loading [e]) rest := by
  cases e <;> rfl

theorem callsUnderLoading_sound :
    ∀ (tr : List Event) (loading : Bool) (pre post : List Event) (y : Event),
      callsUnderLoading loading tr = true → tr = pre ++ y :: post →
        y.isCollaboratorCall = true → loadingAfter loading pre = true := by
  intro tr
  induction tr with
  | nil => intro loading pre post y _ h; simp at h
  | cons e rest ih =>
    intro loading pre post y hg h hy
    simp only [callsUnderLoading, Bool.and_eq_true, Bool.or_eq_true, Bool.not_eq_true'] at hg
    cases pre with
    | nil =>
      simp only [List.nil_append, List.cons.injEq] at h
      obtain ⟨rfl, _⟩ := h
      rcases hg.1 with h1 | h1
      · rw [hy] at h1; exact absurd h1 (by decide)
      · exact h1
    | cons z pre1 =>
      simp only [List.cons_append, List.cons.injEq] at h
      obtain ⟨rfl, hrest⟩ := h
      rw [loadingAfter_cons]
      exact ih _ pre1 post y hg.2 hrest hy

theorem run_callsUnderLoading (env : Env) (st : State) :
    callsUnderLoading st.loading (run env st).trace = true := by
  rcases run_cases env st with h | ⟨msg, h⟩ | ⟨hl, h⟩
  · rw [h]; rfl
  · rw [h]; simp [callsUnderLoading, Event.isCollaboratorCall]
  · rw [h, hl]
    refine tryWorld_cases env st (fun w => callsUnderLoading false w.trace = true)
      ?_ ?_ ?_ ?_ ?_ ?_ ?_ ?_
    all_goals intros
    all_goals simp only [catchEvents, biometryCall]
    all_goals split_ifs <;>
      simp [callsUnderLoading, loadingAfter, Event.isCollaboratorCall, Call.isCollaborator]

/-- C6: when an invocation is in flight (`loading` is true), `onPressCreate`
does nothing: its trace is empty (no collaborator call, no alert) and the state
is unchanged.  And in every run, at each call to a collaborator the value of
`loading` produced by the `setState` calls made so far is true; a valid
submission starts with `setState({ loading: true })` followed by
`exportSeedPhrase('')`. -/
theorem onPressCreate_in_flight_guard (env : Env) (st : State) :
    (st.loading = true → run env st = { state := st, trace := [] }) ∧
      (∀ pre post c b, (run env st).trace = pre ++ Event.call c b :: post →
          c.isCollaborator = true → loadingAfter st.loading pre = true) ∧
      (st.valid → ∃ r rest, (run env st).trace =
          Event.setState true none :: Event.call (.exportSeedPhrase "") r :: rest) := by
  refine ⟨run_of_loading env st, ?_, ?_⟩
  · intro pre post c b h hc
    exact callsUnderLoading_sound _ _ pre post _ (run_callsUnderLoading env st) h hc
  · intro hv
    rw [run_of_valid env st hv]
    refine tryWorld_cases env st
      (fun w => ∃ r rest, w.trace =
        Event.setState true none :: Event.call (.exportSeedPhrase "") r :: rest)
      ?_ ?_ ?_ ?_ ?_ ?_ ?_ ?_
    all_goals intros
    all_goals exact ⟨_, _, rfl⟩

/-- Witness of C6: a second tap while the first invocation is in flight. -/
theorem onPressCreate_in_flight_guard_witness :
    run (Env.allOk "alpha beta")
        { State.withPasswords "abcdefg1!" "abcdefg1!" with loading := true } =
      { state := { State.withPasswords "abcdefg1!" "abcdefg1!" with loading := true }
        trace := [] } :=
  (onPressCreate_in_flight_guard (Env.allOk "alpha beta")
    { State.withPasswords "abcdefg1!" "abcdefg1!" with loading := true }).1 rfl

/-! ## Access control and the biometry flag -/

/-- C7: in a valid submission whose `exportSeedPhrase` and
`createNewVaultAndRestore` return, `setGenericPassword` is called, and only
called, for `metamask-user` with the password and with `DEVICE_PASSCODE` when
`biometryChoice` is false, `BIOMETRY_CURRENT_SET_OR_DEVICE_PASSCODE` when it
is true.  When `setGenericPassword` returns as well: with `biometryChoice`
false, `removeItem('@MetaMask:biometryChoice')` is called and `setItem` is
never called on that key; with `biometryChoice` true,
`setItem('@MetaMask:biometryChoice', biometryType)` is called and `removeItem`
is never called. -/
theorem onPressCreate_access_control (env : Env) (st : State) (m : String) (hv : st.valid)
    (hE : env.exportSeedPhrase "" = .ok m)
    (hC : env.createNewVaultAndRestore st.password (seedOf m) = .ok ()) :
    ((∃ r, Event.call
          (.setGenericPassword "metamask-user" st.password
            (if st.biometryChoice then AccessControl.BIOMETRY_CURRENT_SET_OR_DEVICE_PASSCODE
              else AccessControl.DEVICE_PASSCODE)) r ∈ (run env st).trace) ∧
        ∀ k p a b, Event.call (.setGenericPassword k p a) b ∈ (run env st).trace →
          k = "metamask-user" ∧ p = st.password ∧
            a = (if st.biometryChoice then AccessControl.BIOMETRY_CURRENT_SET_OR_DEVICE_PASSCODE
              else AccessControl.DEVICE_PASSCODE)) ∧
      (env.setGenericPassword "metamask-user" st.password (policyOf st) = .ok () →
        (st.biometryChoice = false →
          (∃ r, Event.call (.removeItem "@MetaMask:biometryChoice") r ∈ (run env st).trace) ∧
            ∀ v b, Event.call (.setItem "@MetaMask:biometryChoice" v) b ∉ (run env st).trace) ∧
        (st.biometryChoice = true →
          (∃ r, Event.call (.setItem "@MetaMask:biometryChoice" st.biometryType) r ∈
              (run env st).trace) ∧
            ∀ k b, Event.call (.removeItem k) b ∉ (run env st).trace)) := by
  rw [run_of_valid env st hv]
  refine tryWorld_cases env st
    (fun w =>
      ((∃ r, Event.call
          (.setGenericPassword "metamask-user" st.password
            (if st.biometryChoice then AccessControl.BIOMETRY_CURRENT_SET_OR_DEVICE_PASSCODE
              else AccessControl.DEVICE_PASSCODE)) r ∈ w.trace) ∧
        ∀ k p a b, Event.call (.setGenericPassword k p a) b ∈ w.trace →
          k = "metamask-user" ∧ p = st.password ∧
            a = (if st.biometryChoice then AccessControl.BIOMETRY_CURRENT_SET_OR_DEVICE_PASSCODE
              else AccessControl.DEVICE_PASSCODE)) ∧
      (env.setGenericPassword "metamask-user" st.password (policyOf st) = .ok () →
        (st.biometryChoice = false →
          (∃ r, Event.call (.removeItem "@MetaMask:biometryChoice") r ∈ w.trace) ∧
            ∀ v b, Event.call (.setItem "@MetaMask:biometryChoice" v) b ∉ w.trace) ∧
        (st.biometryChoice = true →
          (∃ r, Event.call (.setItem "@MetaMask:biometryChoice" st.biometryType) r ∈ w.trace) ∧
            ∀ k b, Event.call (.removeItem k) b ∉ w.trace)))
    ?_ ?_ ?_ ?_ ?_ ?_ ?_ ?_
  · intro e hE1; rw [hE] at hE1; cases hE1
  · intro m1 e hE1 hC1
    rw [hE] at hE1; cases hE1
    rw [hC] at hC1; cases hC1
  all_goals intros
  all_goals simp only [catchEvents, biometryCall, policyOf] at *
  all_goals split_ifs <;> simp_all

/-- Witness of C7: Face ID is detected and the preference is enabled. -/
theorem onPressCreate_access_control_witness :
    ∃ r, Event.call (.setItem "@MetaMask:biometryChoice" (some "FaceID")) r ∈
      (run (Env.allOk "alpha beta")
        { State.withPasswords "abcdefg1!" "abcdefg1!" with
          biometryType := some "FaceID", biometryChoice := true }).trace :=
  (((onPressCreate_access_control (Env.allOk "alpha beta")
    { State.withPasswords "abcdefg1!" "abcdefg1!" with
      biometryType := some "FaceID", biometryChoice := true }
    "alpha beta" (by decide) rfl rfl).2 rfl).2 rfl).1

/-! ## The recovery phrase -/

theorem quoteJSONChar_clean (c : Char) (h1 : c ≠ doubleQuote) (h2 : c ≠ backslash)
    (h3 : 32 ≤ c.toNat) : quoteJSONChar c = [c] := by
  have q : c.toNat ≠ 34 := by
    intro h; apply h1
    rw [← Char.ofNat_toNat c, h]; rfl
  have b : c.toNat ≠ 92 := by
    intro h; apply h2
    rw [← Char.ofNat_toNat c, h]; rfl
  unfold quoteJSONChar
  rw [if_neg (by omega), if_neg (by omega), if_neg (by omega), if_neg (by omega),
    if_neg (by omega), if_neg q, if_neg b, if_neg (by omega)]

theorem splitAux_ne_nil (sep : Char) (l : List Char) : splitAux sep l ≠ [] := by
  cases l with
  | nil => simp [splitAux]
  | cons c cs =>
    unfold splitAux
    split
    · simp
    · split <;> simp

theorem splitAux_word (sep : Char) (w : List Char) (hw : ∀ c ∈ w, c ≠ sep) :
    splitAux sep w = [w] := by
  induction w with
  | nil => rfl
  | cons c cs ih =>
    have hc : c ≠ sep := hw c (List.mem_cons_self _ _)
    have := ih (fun x hx => hw x (List.mem_cons_of_mem _ hx))
    simp [splitAux, hc, this]

theorem splitAux_append (sep : Char) (w rest : List Char) (hw : ∀ c ∈ w, c ≠ sep) :
    splitAux sep (w ++ sep :: rest) = w :: splitAux sep rest := by
  induction w with
  | nil => simp [splitAux]
  | cons c cs ih =>
    have hc : c ≠ sep := hw c (List.mem_cons_self _ _)
    have := ih (fun x hx => hw x (List.mem_cons_of_mem _ hx))
    simp [splitAux, hc, this]

theorem splitAux_intercalate (sep : Char) (ws : List (List Char)) (hne : ws ≠ [])
    (hw : ∀ w ∈ ws, ∀ c ∈ w, c ≠ sep) : splitAux sep ([sep].intercalate ws) = ws := by
  induction ws with
  | nil => exact absurd rfl hne
  | cons w rest ih =>
    cases rest with
    | nil =>
      simp [List.intercalate, List.intersperse]
      exact splitAux_word sep w (hw w (List.mem_cons_self _ _))
    | cons w2 rest2 =>
      have := ih (by simp) (fun x hx => hw x (List.mem_cons_of_mem _ hx))
      simp [List.intercalate, List.intersperse] at this ⊢
      rw [splitAux_append sep w _ (hw w (List.mem_cons_self _ _)), this]

theorem flatten_quote_clean (l : List Char)
    (h : ∀ c ∈ l, c ≠ doubleQuote ∧ c ≠ backslash ∧ 32 ≤ c.toNat) :
    (l.map quoteJSONChar).flatten = l := by
  induction l with
  | nil => rfl
  | cons c cs ih =>
    obtain ⟨h1, h2, h3⟩ := h c (List.mem_cons_self _ _)
    simp [quoteJSONChar_clean c h1 h2 h3, ih (fun x hx => h x (List.mem_cons_of_mem _ hx))]

theorem seedOf_clean (m : String)
    (h : ∀ c ∈ m.data, c ≠ doubleQuote ∧ c ≠ backslash ∧ 32 ≤ c.toNat) : seedOf m = m := by
  have hf : m.data.filter (fun c => c != doubleQuote) = m.data := by
    rw [List.filter_eq_self]
    intro c hc
    simpa using (h c hc).1
  unfold seedOf removeDoubleQuotes JSON_stringify
  simp [flatten_quote_clean m.data h, List.filter_cons, List.filter_append, hf]

theorem intercalate_cons_cons (sep : Char) (w w2 : List Char) (rest : List (List Char)) :
    [sep].intercalate (w :: w2 :: rest) = w ++ sep :: [sep].intercalate (w2 :: rest) := by
  simp [List.intercalate, List.intersperse]

theorem mem_intercalate (sep : Char) (ls : List (List Char)) (c : Char)
    (h : c ∈ [sep].intercalate ls) : c = sep ∨ ∃ l ∈ ls, c ∈ l := by
  induction ls with
  | nil => simp [List.intercalate] at h
  | cons w rest ih =>
    cases rest with
    | nil =>
      simp [List.intercalate, List.intersperse] at h
      exact Or.inr ⟨w, List.mem_cons_self _ _, h⟩
    | cons w2 rest2 =>
      rw [intercalate_cons_cons, List.mem_append, List.mem_cons] at h
      rcases h with h | h | h
      · exact Or.inr ⟨w, List.mem_cons_self _ _, h⟩
      · exact Or.inl h
      · rcases ih h with h1 | ⟨l, hl, hc⟩
        · exact Or.inl h1
        · exact Or.inr ⟨l, List.mem_cons_of_mem _ hl, hc⟩

theorem joinSpace_clean (ws : List String)
    (h : ∀ w ∈ ws, ∀ c ∈ w.data, c ≠ space ∧ c ≠ doubleQuote ∧ c ≠ backslash ∧ 32 ≤ c.toNat) :
    ∀ c ∈ (joinSpace ws).data, c ≠ doubleQuote ∧ c ≠ backslash ∧ 32 ≤ c.toNat := by
  intro c hc
  simp only [joinSpace] at hc
  rcases mem_intercalate space _ c hc with rfl | ⟨l, hl, hcl⟩
  · decide
  · obtain ⟨s, hs, rfl⟩ := List.mem_map.1 hl
    exact (h s hs c hcl).2

theorem splitSpace_joinSpace (ws : List String) (hne : ws ≠ [])
    (h : ∀ w ∈ ws, ∀ c ∈ w.data, c ≠ space) : splitSpace (joinSpace ws) = ws := by
  unfold splitSpace joinSpace
  simp only
  rw [splitAux_intercalate space (ws.map String.data) (by simpa using hne)]
  · simp [List.map_map, Function.comp_def]
  · intro w hw c hc
    obtain ⟨s, hs, rfl⟩ := List.mem_map.1 hw
    exact h s hs c hc

/-- C10: let the keyring export the words `ws` (at least one word, none
containing a space, a double quote, a backslash or a character below U+0020)
joined by single spaces.  In a valid submission in which every call returns,
`createNewVaultAndRestore` receives exactly the exported phrase and `navigate`
receives exactly the words `ws`, in order; joining the handed-off words with
single spaces gives back the phrase the vault was created from. -/
theorem onPressCreate_hands_off_exported_phrase (env : Env) (st : State) (ws : List String)
    (hv : st.valid) (hne : ws ≠ [])
    (hclean : ∀ w ∈ ws, ∀ c ∈ w.data,
      c ≠ space ∧ c ≠ doubleQuote ∧ c ≠ backslash ∧ 32 ≤ c.toNat)
    (hE : env.exportSeedPhrase "" = .ok (joinSpace ws))
    (hC : env.createNewVaultAndRestore st.password (joinSpace ws) = .ok ())
    (hS : env.setGenericPassword "metamask-user" st.password (policyOf st) = .ok ())
    (hB : biometryResult env st = .ok ())
    (hF : env.setItem "@MetaMask:existingUser" (some "true") = .ok ())
    (hP : env.passwordSet = .ok ())
    (hN : env.navigate "AccountBackupStep1" ws = .ok ()) :
    (run env st).trace =
        [Event.setState true none, Event.call (.exportSeedPhrase "") true,
          Event.call (.createNewVaultAndRestore st.password (joinSpace ws)) true,
          Event.call (.setGenericPassword "metamask-user" st.password (policyOf st)) true,
          Event.call (biometryCall st) true,
          Event.call (.setItem "@MetaMask:existingUser" (some "true")) true,
          Event.setState false none, Event.call .passwordSet true,
          Event.call (.navigate "AccountBackupStep1" ws) true] ∧
      seedOf (joinSpace ws) = joinSpace ws ∧
      splitSpace (seedOf (joinSpace ws)) = ws ∧
      joinSpace (splitSpace (seedOf (joinSpace ws))) = joinSpace ws := by
  have hseed : seedOf (joinSpace ws) = joinSpace ws :=
    seedOf_clean _ (joinSpace_clean ws hclean)
  have hsplit : splitSpace (seedOf (joinSpace ws)) = ws := by
    rw [hseed]
    exact splitSpace_joinSpace ws hne (fun w hw c hc => (hclean w hw c hc).1)
  refine ⟨?_, hseed, hsplit, by rw [hsplit]⟩
  rw [← hseed] at hC
  rw [← hsplit] at hN
  rw [run_of_valid env st hv, tryWorld_success env st _ hE hC hS hB hF hP hN, hsplit, hseed]

/-- Witness of C10: the keyring exports the three words `alpha beta gamma`. -/
theorem onPressCreate_hands_off_exported_phrase_witness :
    (run (Env.allOk "alpha beta gamma") (State.withPasswords "abcdefg1!" "abcdefg1!")).trace =
      [Event.setState true none, Event.call (.exportSeedPhrase "") true,
        Event.call (.createNewVaultAndRestore "abcdefg1!" "alpha beta gamma") true,
        Event.call (.setGenericPassword "metamask-user" "abcdefg1!" .DEVICE_PASSCODE) true,
        Event.call (.removeItem "@MetaMask:biometryChoice") true,
        Event.call (.setItem "@MetaMask:existingUser" (some "true")) true,
        Event.setState false none, Event.call .passwordSet true,
        Event.call (.navigate "AccountBackupStep1" ["alpha", "beta", "gamma"]) true] :=
  (onPressCreate_hands_off_exported_phrase (Env.allOk "alpha beta gamma")
    (State.withPasswords "abcdefg1!" "abcdefg1!") ["alpha", "beta", "gamma"]
    (by decide) (by decide) (by decide) rfl rfl rfl rfl rfl rfl rfl).1

/-! ## Password strength -/

/-- The strength is 3 exactly when the password is longer than six code units
and the three searches of the source succeed. -/
theorem strength_eq_three_iff (val : String) :
    strength val = 3 ↔
      6 < jsLength val ∧ matchLower val = true ∧ matchDigit val = true ∧
        matchDotSymbol val = true := by
  unfold strength
  by_cases h6 : 6 < jsLength val <;> cases matchLower val <;> cases matchDigit val <;>
    cases matchDotSymbol val <;> simp [h6]

/-- The search for the symbol pattern succeeds exactly when some character that
is not a line terminator is immediately followed by a member of the class. -/
theorem matchDotSymbolAux_iff (l : List Char) :
    matchDotSymbolAux l = true ↔
      ∃ before c d after, l = before ++ c :: d :: after ∧ isLineTerminator c = false ∧
        isSymbol d = true := by
  induction l with
  | nil => simp [matchDotSymbolAux]
  | cons a rest ih =>
    cases rest with
    | nil =>
      simp only [matchDotSymbolAux, Bool.false_eq_true, false_iff]
      rintro ⟨before, c, d, after, h, _⟩
      have := congrArg List.length h
      simp at this
      omega
    | cons b rest2 =>
      simp only [matchDotSymbolAux, Bool.or_eq_true, Bool.and_eq_true, Bool.not_eq_true', ih]
      constructor
      · rintro (⟨h1, h2⟩ | ⟨before, c, d, after, h, h1, h2⟩)
        · exact ⟨[], a, b, rest2, rfl, h1, h2⟩
        · exact ⟨a :: before, c, d, after, by rw [h]; rfl, h1, h2⟩
      · rintro ⟨before, c, d, after, h, h1, h2⟩
        cases before with
        | nil =>
          simp only [List.nil_append, List.cons.injEq] at h
          obtain ⟨rfl, rfl, _⟩ := h
          exact Or.inl ⟨h1, h2⟩
        | cons x before2 =>
          simp only [List.cons_append, List.cons.injEq] at h
          exact Or.inr ⟨before2, c, d, after, h.2, h1, h2⟩

/-- C8, evaluated where it fails: `abcdef1-` and `!abcdef1` are longer than six
code units and hold a lowercase letter, a digit and a listed symbol (the
hyphen, the exclamation mark), yet `onPasswordChange` records the strength 2,
not 3: the hyphen is not a member of the class of the pattern, and the pattern
asks for a character before the symbol.  The example of the specification,
`abcdefg1!`, gets the strength 3. -/
theorem onPasswordChange_strong_fails :
    (6 < jsLength "abcdef1-" ∧ matchLower "abcdef1-" = true ∧ matchDigit "abcdef1-" = true ∧
        "abcdef1-".data.any isListedSymbol = true ∧
        (onPasswordChange State.initial "abcdef1-").passwordStrength = some 2) ∧
      (6 < jsLength "!abcdef1" ∧ matchLower "!abcdef1" = true ∧ matchDigit "!abcdef1" = true ∧
        "!abcdef1".data.any isListedSymbol = true ∧
        (onPasswordChange State.initial "!abcdef1").passwordStrength = some 2) ∧
      (onPasswordChange State.initial "abcdefg1!").passwordStrength = some 3 := by
  decide

/-- C9, evaluated where it fails: `abcdefg-` and `!abcdefg` are longer than six
code units and hold a lowercase letter and a listed symbol but no digit, yet
`onPasswordChange` records the strength 1, not 2; `abcdef1,` holds a lowercase
letter and a digit and no listed symbol, yet the strength recorded is 3, since
the comma is a member of the class of the pattern.  The example of the
specification, `abcdefg1`, gets the strength 2. -/
theorem onPasswordChange_good_fails :
    (6 < jsLength "abcdefg-" ∧ matchLower "abcdefg-" = true ∧ matchDigit "abcdefg-" = false ∧
        "abcdefg-".data.any isListedSymbol = true ∧
        (onPasswordChange State.initial "abcdefg-").passwordStrength = some 1) ∧
      (6 < jsLength "!abcdefg" ∧ matchLower "!abcdefg" = true ∧ matchDigit "!abcdefg" = false ∧
        "!abcdefg".data.any isListedSymbol = true ∧
        (onPasswordChange State.initial "!abcdefg").passwordStrength = some 1) ∧
      (6 < jsLength "abcdef1," ∧ matchLower "abcdef1," = true ∧ matchDigit "abcdef1," = true ∧
        "abcdef1,".data.any isListedSymbol = false ∧
        (onPasswordChange State.initial "abcdef1,").passwordStrength = some 3) ∧
      (onPasswordChange State.initial "abcdefg1").passwordStrength = some 2 := by
  decide

end ChoosePassword
